import Mathlib

/-!
Verification of the parametric raster pixelation engine of the Image-to-ART
repository (`src/src/App.js`, `generatePixelatedImage` and its handlers).

The engine draws onto an HTML canvas with a CSS filter list
`brightness(b) contrast(c) drop-shadow(0 0 r rgba(0,0,0,0.6))` and, for
`pixelSize > 0`, resamples through a `ceil(W/px) x ceil(H/px)` temporary canvas
with `imageSmoothingEnabled = false` (nearest-neighbor) in both directions.

The embedding below models:
* pixels as RGBA samples with rational color channels in `[0,255]` and a
  rational alpha in `[0,1]` (the final 8-bit PNG quantisation is a boundary
  encoding concern and is not part of the algorithm's identity);
* the CSS filter list applied left to right, so `brightness` is applied to the
  drawn image first, then `contrast`, then `drop-shadow` (CSS Filter Effects:
  each function operates on the result of the previous one);
* `drop-shadow(0 0 r rgba(0,0,0,0.6))` as the image source-over-composited onto
  its own blurred alpha silhouette tinted 60%-opaque black (for radius 0 the
  silhouette is exact); the blur for positive radius is modelled as the box
  average of the alpha mask over the `(2r+1) x (2r+1)` window, transparent
  outside the canvas — no theorem below depends on blurred values at `r > 0`;
* nearest-neighbor resampling as mapping each destination pixel center back to
  the source grid and taking the sample whose cell contains it;
* the React component state (`pixelatedImage`, `isGenerating`, parameter
  state, the uploaded image element with its `complete` flag and `onload`
  slot) as an explicit `World` record, and `generatePixelatedImage`,
  `handleImageUpload`, `handlePixelSizeChange`, together with the platform
  events "decode finishes" (`loadCompletes`: the element's `complete` flag
  becomes true; the `load` event itself is dispatched as a separate task) and
  "the pending load handler runs" (`fireOnload`).

Fallibility: every canvas operation of the `try` block (element allocation,
context creation, `toDataURL`) can fail on resource exhaustion; this is
modelled by a boolean `allocOk` input, and the boolean component of the result
of `generatePixelatedImage` records whether an exception escapes to the caller.
-/

namespace ImageToArt

/-- One RGBA sample: color channels on the `[0,255]` scale, alpha on `[0,1]`. -/
structure Pixel where
  r : ℚ
  g : ℚ
  b : ℚ
  a : ℚ
deriving DecidableEq

/-- A bitmap: dimensions plus a total sample function (values outside the
`width x height` rectangle are irrelevant junk; all statements are made on
in-bounds coordinates). -/
structure Image where
  width : Nat
  height : Nat
  px : Nat → Nat → Pixel

/-- Per-channel clamping to the representable `[0,255]` range, applied by every
CSS filter primitive to its result. -/
def clamp255 (x : ℚ) : ℚ := max 0 (min 255 x)

/-- CSS `brightness(b)`: linear transfer with slope `b` on each color channel,
alpha untouched. -/
def brightnessF (b : ℚ) (q : Pixel) : Pixel :=
  ⟨clamp255 (b * q.r), clamp255 (b * q.g), clamp255 (b * q.b), q.a⟩

/-- CSS `contrast(c)`: linear transfer with slope `c` pivoting at mid-gray
(`127.5 = 255/2`) on each color channel, alpha untouched. -/
def contrastF (c : ℚ) (q : Pixel) : Pixel :=
  ⟨clamp255 (c * (q.r - 255/2) + 255/2),
   clamp255 (c * (q.g - 255/2) + 255/2),
   clamp255 (c * (q.b - 255/2) + 255/2), q.a⟩

/-- Pointwise image transform (dimensions preserved). -/
def mapPx (f : Pixel → Pixel) (A : Image) : Image :=
  ⟨A.width, A.height, fun x y => f (A.px x y)⟩

/-- Alpha of an image at signed coordinates, transparent outside the bounds. -/
def alphaAt (A : Image) (x y : ℤ) : ℚ :=
  if 0 ≤ x ∧ x < (A.width : ℤ) ∧ 0 ≤ y ∧ y < (A.height : ℤ) then
    (A.px x.toNat y.toNat).a
  else 0

/-- Blur of the alpha mask used by the drop-shadow: identity at radius `0`
(a zero-deviation blur disables blurring), box average over the
`(2r+1) x (2r+1)` window for positive radius. -/
def blurA (rad : Nat) (A : Image) (x y : Nat) : ℚ :=
  if rad = 0 then (A.px x y).a
  else
    (((List.range (2*rad+1)).map (fun dx =>
        ((List.range (2*rad+1)).map (fun dy =>
            alphaAt A ((x : ℤ) + dx - rad) ((y : ℤ) + dy - rad))).sum)).sum)
      / ((2*rad+1)^2 : ℚ)

/-- Porter-Duff source-over compositing of straight-alpha pixels (`s` drawn on
top of `d`). -/
def srcOver (s d : Pixel) : Pixel :=
  let a := s.a + d.a * (1 - s.a)
  if a = 0 then ⟨0, 0, 0, 0⟩
  else
    ⟨(s.r * s.a + d.r * d.a * (1 - s.a)) / a,
     (s.g * s.a + d.g * d.a * (1 - s.a)) / a,
     (s.b * s.a + d.b * d.a * (1 - s.a)) / a, a⟩

/-- CSS `drop-shadow(0 0 rad rgba(0,0,0,0.6))`: the image composited over its
blurred alpha silhouette tinted `0.6`-opaque black (zero offset), clipped to
the canvas rectangle. -/
def dropShadow (rad : Nat) (A : Image) : Image :=
  ⟨A.width, A.height, fun x y =>
    srcOver (A.px x y) ⟨0, 0, 0, (6/10) * blurA rad A x y⟩⟩

/-- The four slider parameters of `App.js` (pixel size and shadow radius are
integers, brightness and contrast are scalar multipliers). -/
structure Params where
  pixelSize : Nat
  brightness : ℚ
  contrast : ℚ
  shadow : Nat
deriving DecidableEq

/-- The composite canvas filter of `App.js` lines 77-81:
`brightness(b) contrast(c) drop-shadow(0 0 s rgba(0,0,0,0.6))`, the
functions applied left to right (brightness to the drawn pixels first, then
contrast, then the drop-shadow). -/
def applyFilter (p : Params) (A : Image) : Image :=
  dropShadow p.shadow
    (mapPx (fun q => contrastF p.contrast (brightnessF p.brightness q)) A)

/-- Nearest-neighbor source index for destination pixel `i` when resampling a
length-`sw` axis to length `dw`: the source cell containing the destination
pixel center `(i + 1/2) * sw / dw`. -/
def srcIndex (i dw sw : Nat) : Nat := ((2*i + 1) * sw) / (2*dw)

/-- Nearest-neighbor resampling of `A` to a `dw x dh` surface
(`imageSmoothingEnabled = false` on both canvases). -/
def scaleNN (A : Image) (dw dh : Nat) : Image :=
  ⟨dw, dh, fun x y => A.px (srcIndex x dw A.width) (srcIndex y dh A.height)⟩

/-- Ceiling division on naturals, `Math.ceil(a / b)` for positive integers. -/
def ceilDiv (a b : Nat) : Nat := (a + b - 1) / b

/-- The pixelation resample of `App.js` lines 94-112: downscale to
`ceil(W/ps) x ceil(H/ps)` through the temporary canvas, then upscale back to
`W x H`, both with nearest-neighbor sampling. -/
def pixelate (A : Image) (ps : Nat) : Image :=
  scaleNN (scaleNN A (ceilDiv A.width ps) (ceilDiv A.height ps)) A.width A.height

/-- The pure pixel pipeline of one successful render: the `W x H` canvas
content before PNG encoding. For `pixelSize ≤ 0` the (filtered) source is
drawn 1:1; otherwise the pixelation resample is drawn through the filter
(the filter is applied on the final upscale draw, lines 83-113). -/
def renderPixels (A : Image) (p : Params) : Image :=
  if p.pixelSize ≤ 0 then applyFilter p A
  else applyFilter p (pixelate A p.pixelSize)

/-- The per-pixel color transform in the order the specification words claim
(contrast applied to the input first, then brightness). Declared only to be
compared against the order the source actually applies. -/
def filterContrastThenBrightness (b c : ℚ) (q : Pixel) : Pixel :=
  brightnessF b (contrastF c q)

/-- The render pipeline with the brightness/contrast order swapped relative to
the source (contrast first, then brightness), the comparison point for the
filter-order claim. -/
def renderPixelsSwapped (A : Image) (p : Params) : Image :=
  if p.pixelSize ≤ 0 then
    dropShadow p.shadow
      (mapPx (filterContrastThenBrightness p.brightness p.contrast) A)
  else
    dropShadow p.shadow
      (mapPx (filterContrastThenBrightness p.brightness p.contrast)
        (pixelate A p.pixelSize))

/-- Pixelwise agreement of two images on their common (equal) dimensions. -/
def Image.EqOn (A B : Image) : Prop :=
  A.width = B.width ∧ A.height = B.height ∧
    ∀ x, x < A.width → ∀ y, y < A.height → A.px x y = B.px x y

instance instDecEqOn (A B : Image) : Decidable (A.EqOn B) := by
  unfold Image.EqOn
  infer_instance

/-- A representable RGBA sample: color channels in `[0,255]`, alpha in
`[0,1]`. -/
def PixelInRange (q : Pixel) : Prop :=
  0 ≤ q.r ∧ q.r ≤ 255 ∧ 0 ≤ q.g ∧ q.g ≤ 255 ∧
    0 ≤ q.b ∧ q.b ≤ 255 ∧ 0 ≤ q.a ∧ q.a ≤ 1

instance instDecPixelInRange (q : Pixel) : Decidable (PixelInRange q) := by
  unfold PixelInRange
  infer_instance

/-- All in-bounds samples have color channels in `[0,255]` and alpha in
`[0,1]` (what a decoded RGBA8 bitmap provides). -/
def Image.InRange (A : Image) : Prop :=
  ∀ x, x < A.width → ∀ y, y < A.height → PixelInRange (A.px x y)

instance instDecInRange (A : Image) : Decidable A.InRange := by
  unfold Image.InRange
  infer_instance

/-- All in-bounds samples are fully opaque. -/
def Image.Opaque (A : Image) : Prop :=
  ∀ x, x < A.width → ∀ y, y < A.height → (A.px x y).a = 1

instance instDecOpaque (A : Image) : Decidable A.Opaque := by
  unfold Image.Opaque
  infer_instance

/-- Value stored in the `pixelatedImage` React state: either the raw `src`
data-URL of an image element (identified by an opaque id), or the PNG encoding
of a rendered canvas (identified by its pixel content; the byte encoding is a
function of the pixels). -/
inductive Display where
  | srcURL (src : Nat)
  | canvasPNG (image : Image)

/-- An HTML image element as `generatePixelatedImage` uses it: decode flag,
`naturalWidth`, the opaque id of its `src` data-URL, its decoded bitmap, and
the writable `onload` slot (a pending re-invocation stores the parameters it
will render with, the data its closure captured). -/
structure Img where
  complete : Bool
  naturalWidth : Nat
  src : Nat
  pixels : Image
  onload : Option Params

/-- The component state of `App` that the render path touches: the uploaded
image element (`uploadedImage`), the displayed output (`pixelatedImage`), the
four parameter states and the `isGenerating` flag. -/
structure World where
  image : Option Img
  displayed : Option Display
  params : Params
  isGenerating : Bool

/-- The optional per-call parameter overrides (`overrides` argument of
`generatePixelatedImage`); absent fields default to the component state the
callback closed over (lines 38-43). -/
structure Overrides where
  pixelSize : Option Nat
  brightness : Option ℚ
  contrast : Option ℚ
  shadow : Option Nat

/-- Empty overrides (`generatePixelatedImage(image)` with no second argument). -/
def noOverrides : Overrides := ⟨none, none, none, none⟩

/-- Effective parameters of one call: each override field, defaulting to the
closed-over component state. -/
def resolve (p : Params) (o : Overrides) : Params :=
  ⟨o.pixelSize.getD p.pixelSize, o.brightness.getD p.brightness,
   o.contrast.getD p.contrast, o.shadow.getD p.shadow⟩

/-- Body of `generatePixelatedImage` after parameter resolution (lines
53-125), for a present image `img` and effective parameters `p`:
set `isGenerating`; if the image is not decoded (`!complete || naturalWidth
=== 0`) store a one-shot re-invocation in `onload` and return; otherwise run
the `try` block — on success store the rendered PNG and clear `isGenerating`,
on an allocation failure the `catch` clears `isGenerating` and returns
normally. The boolean result records whether an exception escapes the call. -/
def generateCore (w : World) (img : Img) (p : Params) (allocOk : Bool) :
    World × Bool :=
  let w1 : World := { w with isGenerating := true }
  if img.complete = false ∨ img.naturalWidth = 0 then
    ({ w1 with image := some { img with onload := some p } }, false)
  else if allocOk then
    ({ w1 with
        displayed := some (Display.canvasPNG (renderPixels img.pixels p)),
        isGenerating := false }, false)
  else
    ({ w1 with isGenerating := false }, false)

/-- `generatePixelatedImage(image, overrides)` (lines 33-126): early return
when no image, otherwise the core body on the parameters resolved from the
overrides and the closed-over state. -/
def generatePixelatedImage (w : World) (o : Overrides) (allocOk : Bool) :
    World × Bool :=
  match w.image with
  | none => (w, false)
  | some img => generateCore w img (resolve w.params o) allocOk

/-- Platform event: decoding of the uploaded image finishes. The element's
`complete` flag is set and `naturalWidth` becomes the bitmap width; the `load`
event that runs the `onload` handler is dispatched as a separate task
(`fireOnload`), so other tasks may be processed in between. -/
def loadCompletes (w : World) : World :=
  match w.image with
  | none => w
  | some img =>
      { w with image := some { img with
          complete := true, naturalWidth := img.pixels.width } }

/-- Platform event: the pending `load` handler of the uploaded image runs
(lines 58-61): it clears `image.onload` and re-invokes the generation with the
parameters its closure captured. Without a pending handler nothing happens. -/
def fireOnload (w : World) (allocOk : Bool) : World × Bool :=
  match w.image with
  | none => (w, false)
  | some img =>
      match img.onload with
      | none => (w, false)
      | some p =>
          let img2 : Img := { img with onload := none }
          generateCore { w with image := some img2 } img2 p allocOk

/-- `handleImageUpload(image)` (lines 136-148): store the uploaded element,
immediately display its raw `src` data-URL as fallback, then invoke the
generation with no overrides. -/
def handleImageUpload (w : World) (img : Img) (allocOk : Bool) :
    World × Bool :=
  generatePixelatedImage
    { w with image := some img, displayed := some (Display.srcURL img.src) }
    noOverrides allocOk

/-- `handlePixelSizeChange(newSize)` (lines 150-155): update the `pixelSize`
state and, if an image is uploaded, invoke the generation with the new size as
override (the other effective parameters are the unchanged state values). -/
def handlePixelSizeChange (w : World) (n : Nat) (allocOk : Bool) :
    World × Bool :=
  let w1 : World := { w with params := { w.params with pixelSize := n } }
  match w1.image with
  | none => (w1, false)
  | some _ =>
      generatePixelatedImage w1 ⟨some n, none, none, none⟩ allocOk

/-- A constant-colored image. -/
def constImg (w h : Nat) (q : Pixel) : Image := ⟨w, h, fun _ _ => q⟩

/-- Opaque black. -/
def blackPx : Pixel := ⟨0, 0, 0, 1⟩

/-- Opaque white. -/
def whitePx : Pixel := ⟨255, 255, 255, 1⟩

/-- The 4x4 checkerboard of alternating opaque black/white 1-pixel cells. -/
def checker4 : Image :=
  ⟨4, 4, fun x y => if (x + y) % 2 = 0 then blackPx else whitePx⟩

/-- A 2x2 bitmap with one black corner, otherwise white (its `pixelSize = 1`
and `pixelSize = 2` renders differ). -/
def img2 : Image := ⟨2, 2, fun x y => if x = 0 ∧ y = 0 then blackPx else whitePx⟩

/-- A 1x1 half-transparent red bitmap. -/
def imgT : Image := ⟨1, 1, fun _ _ => ⟨255, 0, 0, 1/2⟩⟩

/-- A non-uniform opaque 2x1 bitmap. -/
def pairImg : Image :=
  ⟨2, 1, fun x _ => if x = 0 then ⟨50, 60, 70, 1⟩ else ⟨200, 10, 30, 1⟩⟩

/-- A non-uniform opaque 2x2 bitmap with channels in range. -/
def opaqueImg : Image :=
  ⟨2, 2, fun x y => if x = y then ⟨10, 20, 30, 1⟩ else ⟨200, 100, 50, 1⟩⟩

/-- A not-yet-decoded image element holding `img2`. -/
def imgLoading : Img := ⟨false, 0, 7, img2, none⟩

/-- A fully decoded image element holding `img2`, no pending handler. -/
def imgDone : Img := ⟨true, 2, 9, img2, none⟩

/-- Initial component state with the loading element uploaded and default
slider values (`pixelSize = 10`, identity filters). -/
def wLoading : World := ⟨some imgLoading, none, ⟨10, 1, 1, 0⟩, false⟩

/-- Component state with the decoded element uploaded and default sliders. -/
def wDone : World := ⟨some imgDone, some (Display.srcURL 9), ⟨10, 1, 1, 0⟩, false⟩

/-- A second state over the same decoded element with different displayed
output and `isGenerating` flag (for the statelessness witness). -/
def wDone2 : World := ⟨some imgDone, none, ⟨10, 1, 1, 0⟩, true⟩

/-! ### Helper lemmas -/

theorem clamp255_eq_self {x : ℚ} (h0 : 0 ≤ x) (h1 : x ≤ 255) : clamp255 x = x := by
  unfold clamp255
  rw [min_eq_right h1, max_eq_right h0]

theorem clamp255_nonneg (x : ℚ) : 0 ≤ clamp255 x := le_max_left 0 _

theorem clamp255_le (x : ℚ) : clamp255 x ≤ 255 := by
  unfold clamp255
  exact max_le (by norm_num) (min_le_left 255 x)

theorem brightnessF_one {q : Pixel} (h : PixelInRange q) : brightnessF 1 q = q := by
  obtain ⟨h1, h2, h3, h4, h5, h6, _, _⟩ := h
  cases q
  simp only [brightnessF, one_mul]
  simp_all [clamp255_eq_self]

theorem contrastF_one {q : Pixel} (h : PixelInRange q) : contrastF 1 q = q := by
  obtain ⟨h1, h2, h3, h4, h5, h6, _, _⟩ := h
  cases q
  simp only [contrastF, one_mul, sub_add_cancel]
  simp_all [clamp255_eq_self]

theorem contrastF_inRange {c : ℚ} {q : Pixel} (h : PixelInRange q) :
    PixelInRange (contrastF c q) := by
  obtain ⟨_, _, _, _, _, _, h7, h8⟩ := h
  exact ⟨clamp255_nonneg _, clamp255_le _, clamp255_nonneg _, clamp255_le _,
    clamp255_nonneg _, clamp255_le _, h7, h8⟩

theorem brightnessF_a (b : ℚ) (q : Pixel) : (brightnessF b q).a = q.a := rfl

theorem contrastF_a (c : ℚ) (q : Pixel) : (contrastF c q).a = q.a := rfl

theorem srcOver_opaque {s : Pixel} (d : Pixel) (h : s.a = 1) :
    srcOver s d = s := by
  cases s
  simp only at h
  subst h
  simp [srcOver]

theorem applyFilter_width (p : Params) (A : Image) :
    (applyFilter p A).width = A.width := rfl

theorem applyFilter_height (p : Params) (A : Image) :
    (applyFilter p A).height = A.height := rfl

/-- The canvas filter with `brightness = 1`, `contrast = 1`, `shadowRadius = 0`
is the identity on every in-bounds, in-range, fully opaque sample. -/
theorem applyFilter_ident_px (ps : Nat) (A : Image) (x y : Nat)
    (hq : PixelInRange (A.px x y)) (ha : (A.px x y).a = 1) :
    (applyFilter ⟨ps, 1, 1, 0⟩ A).px x y = A.px x y := by
  have hfix : contrastF 1 (brightnessF 1 (A.px x y)) = A.px x y := by
    rw [brightnessF_one hq, contrastF_one hq]
  show srcOver (contrastF 1 (brightnessF 1 (A.px x y)))
      ⟨0, 0, 0, (6/10) * blurA 0 (mapPx (fun q => contrastF 1 (brightnessF 1 q)) A) x y⟩
      = A.px x y
  rw [hfix]
  exact srcOver_opaque _ ha

theorem srcIndex_lt {i d s : Nat} (hi : i < d) (hs : 0 < s) :
    srcIndex i d s < s := by
  unfold srcIndex
  have hd : 0 < 2 * d := by omega
  rw [Nat.div_lt_iff_lt_mul hd]
  have h1 : 2 * i + 1 < 2 * d := by omega
  calc (2*i + 1) * s < (2*d) * s := by
        exact Nat.mul_lt_mul_of_lt_of_le h1 (le_refl s) hs
    _ = s * (2*d) := by ring

theorem ceilDiv_pos {a b : Nat} (ha : 0 < a) (hb : 0 < b) : 0 < ceilDiv a b := by
  unfold ceilDiv
  have h : 1 * b ≤ a + b - 1 := by omega
  have := (Nat.le_div_iff_mul_le hb).mpr h
  omega

/-- Every sample of a nearest-neighbor resample is one of the source's
in-bounds samples. -/
theorem scaleNN_px (A : Image) (dw dh x y : Nat) (hx : x < dw) (hy : y < dh)
    (hw : 0 < A.width) (hh : 0 < A.height) :
    ∃ sx, sx < A.width ∧ ∃ sy, sy < A.height ∧
      (scaleNN A dw dh).px x y = A.px sx sy :=
  ⟨srcIndex x dw A.width, srcIndex_lt hx hw,
   srcIndex y dh A.height, srcIndex_lt hy hh, rfl⟩

/-- Every sample of the pixelation resample is one of the source's in-bounds
samples (nearest-neighbor point sampling, no averaging). -/
theorem pixelate_px (A : Image) (ps x y : Nat) (hps : 0 < ps)
    (hw : 0 < A.width) (hh : 0 < A.height)
    (hx : x < A.width) (hy : y < A.height) :
    ∃ sx, sx < A.width ∧ ∃ sy, sy < A.height ∧
      (pixelate A ps).px x y = A.px sx sy := by
  have hw1 : 0 < ceilDiv A.width ps := ceilDiv_pos hw hps
  have hh1 : 0 < ceilDiv A.height ps := ceilDiv_pos hh hps
  refine ⟨srcIndex (srcIndex x A.width (ceilDiv A.width ps)) (ceilDiv A.width ps) A.width,
    srcIndex_lt (srcIndex_lt hx hw1) hw,
    srcIndex (srcIndex y A.height (ceilDiv A.height ps)) (ceilDiv A.height ps) A.height,
    srcIndex_lt (srcIndex_lt hy hh1) hh, rfl⟩

theorem pixelate_preserves_opacity (A : Image) (ps : Nat) (hps : 0 < ps)
    (hw : 0 < A.width) (hh : 0 < A.height) (hop : A.Opaque) :
    (pixelate A ps).Opaque := by
  intro x hx y hy
  obtain ⟨sx, hsx, sy, hsy, he⟩ := pixelate_px A ps x y hps hw hh hx hy
  rw [he]
  exact hop sx hsx sy hsy

theorem pixelate_inRange (A : Image) (ps : Nat) (hps : 0 < ps)
    (hw : 0 < A.width) (hh : 0 < A.height) (hir : A.InRange) :
    (pixelate A ps).InRange := by
  intro x hx y hy
  obtain ⟨sx, hsx, sy, hsy, he⟩ := pixelate_px A ps x y hps hw hh hx hy
  rw [he]
  exact hir sx hsx sy hsy

theorem pixelate_width (A : Image) (ps : Nat) : (pixelate A ps).width = A.width := rfl

theorem pixelate_height (A : Image) (ps : Nat) : (pixelate A ps).height = A.height := rfl

theorem renderPixels_width (A : Image) (p : Params) :
    (renderPixels A p).width = A.width := by
  unfold renderPixels
  split <;> rfl

theorem renderPixels_height (A : Image) (p : Params) :
    (renderPixels A p).height = A.height := by
  unfold renderPixels
  split <;> rfl

/-- The identity-filter render (`brightness = 1`, `contrast = 1`,
`shadowRadius = 0`) agrees with its input wherever the input is opaque and in
range; with `pixelSize = 0` the input is the source itself. -/
theorem applyFilter_ident_eqOn (ps : Nat) (A : Image)
    (hop : A.Opaque) (hir : A.InRange) :
    (applyFilter ⟨ps, 1, 1, 0⟩ A).EqOn A :=
  ⟨rfl, rfl, fun x hx y hy =>
    applyFilter_ident_px ps A x y (hir x hx y hy) (hop x hx y hy)⟩

theorem Image.EqOn.trans {A B C : Image} (h1 : A.EqOn B) (h2 : B.EqOn C) :
    A.EqOn C := by
  obtain ⟨hw1, hh1, hp1⟩ := h1
  obtain ⟨hw2, hh2, hp2⟩ := h2
  exact ⟨hw1.trans hw2, hh1.trans hh2, fun x hx y hy =>
    (hp1 x hx y hy).trans (hp2 x (hw1 ▸ hx) y (hh1 ▸ hy))⟩

/-- With `brightness = 1` the source's brightness-then-contrast composition
coincides with the contrast-then-brightness composition on representable
samples (the slope-1 brightness transfer is the identity there). -/
theorem filter_swap_of_brightness_one {c : ℚ} {q : Pixel} (h : PixelInRange q) :
    contrastF c (brightnessF 1 q) = filterContrastThenBrightness 1 c q := by
  rw [brightnessF_one h]
  unfold filterContrastThenBrightness
  rw [brightnessF_one (contrastF_inRange h)]

/-! ### Claims -/

/-- C1 (counterexample): the claim asserts that the per-pixel filter applies
contrast first and then brightness, so that the render output differs from a
brightness-then-contrast composition for every non-identity parameter pair on
non-uniform input, in particular at `(contrast = 2, brightness = 1)`. In the
source the CSS filter list `brightness(b) contrast(c)` applies brightness
first, so with `brightness = 1` the two compositions coincide: on the
non-uniform image `pairImg` the render with `(contrast = 2, brightness = 1)`
is pixel-identical to the contrast-then-brightness (swapped) pipeline. -/
theorem c1_filter_order_counterexample :
    pairImg.px 0 0 ≠ pairImg.px 1 0 ∧
    (renderPixels pairImg ⟨0, 1, 2, 0⟩).EqOn
      (renderPixelsSwapped pairImg ⟨0, 1, 2, 0⟩) := by
  refine ⟨by decide, rfl, rfl, ?_⟩
  intro x hx y hy
  have hx2 : x < 2 := hx
  have hy2 : y < 1 := hy
  have hq : PixelInRange (pairImg.px x y) :=
    (by decide : pairImg.InRange) x hx2 y hy2
  have key : contrastF 2 (brightnessF 1 (pairImg.px x y)) =
      filterContrastThenBrightness 1 2 (pairImg.px x y) :=
    filter_swap_of_brightness_one hq
  show srcOver (contrastF 2 (brightnessF 1 (pairImg.px x y)))
        ⟨0, 0, 0, (6/10) * (contrastF 2 (brightnessF 1 (pairImg.px x y))).a⟩ =
      srcOver (filterContrastThenBrightness 1 2 (pairImg.px x y))
        ⟨0, 0, 0, (6/10) * (filterContrastThenBrightness 1 2 (pairImg.px x y)).a⟩
  rw [key]

/-- C1 (amended): the composite canvas filter applies brightness first, then
contrast, then the drop-shadow (the CSS filter-function list is applied left
to right); swapping brightness and contrast does change the output when both
are non-identity: with `(brightness = 2, contrast = 2)` the render of the
non-uniform `pairImg` differs from the contrast-then-brightness pipeline. -/
theorem c1_filter_order_amended :
    (∀ (p : Params) (A : Image), applyFilter p A =
      dropShadow p.shadow
        (mapPx (fun q => contrastF p.contrast (brightnessF p.brightness q)) A)) ∧
    pairImg.px 0 0 ≠ pairImg.px 1 0 ∧
    ¬ (renderPixels pairImg ⟨0, 2, 2, 0⟩).EqOn
        (renderPixelsSwapped pairImg ⟨0, 2, 2, 0⟩) := by
  refine ⟨fun p A => rfl, by decide, ?_⟩
  intro h
  have hp := h.2.2 0 (by decide) 0 (by decide)
  have hL : (renderPixels pairImg ⟨0, 2, 2, 0⟩).px 0 0 =
      contrastF 2 (brightnessF 2 (pairImg.px 0 0)) :=
    srcOver_opaque _ rfl
  have hR : (renderPixelsSwapped pairImg ⟨0, 2, 2, 0⟩).px 0 0 =
      filterContrastThenBrightness 2 2 (pairImg.px 0 0) :=
    srcOver_opaque _ rfl
  rw [hL, hR] at hp
  have hr := congrArg Pixel.r hp
  norm_num [filterContrastThenBrightness, brightnessF, contrastF,
    clamp255, pairImg] at hr

/-- C2 (counterexample): the claim asserts that
`pixelSize = 0, brightness = 1, contrast = 1, shadowRadius = 0` reproduces
every fully decoded source unchanged. The filter list still contains
`drop-shadow(0 0 0px rgba(0,0,0,0.6))`, which composites an unblurred
60%-black silhouette beneath the image, so any semi-transparent sample is
altered: the half-transparent `imgT` is not reproduced (its alpha becomes
`13/20`). -/
theorem c2_identity_counterexample :
    ¬ (renderPixels imgT ⟨0, 1, 1, 0⟩).EqOn imgT := by
  intro h
  have hp := h.2.2 0 (by decide) 0 (by decide)
  have ha := congrArg Pixel.a hp
  norm_num [renderPixels, applyFilter, dropShadow, mapPx, brightnessF,
    contrastF, clamp255, blurA, srcOver, imgT] at ha

/-- C2 (amended): for every fully opaque, in-range source image, the render
with `pixelSize = 0, brightness = 1, contrast = 1, shadowRadius = 0` equals
the source pixel for pixel (the 60%-black shadow silhouette is composited
entirely beneath opaque samples, and the linear filters at slope 1 are the
identity on representable values). -/
theorem c2_identity_amended (A : Image) (hop : A.Opaque) (hir : A.InRange) :
    (renderPixels A ⟨0, 1, 1, 0⟩).EqOn A := by
  show (applyFilter ⟨0, 1, 1, 0⟩ A).EqOn A
  exact applyFilter_ident_eqOn 0 A hop hir

/-- C2 (witness). -/
theorem c2_identity_witness :
    opaqueImg.Opaque ∧ opaqueImg.InRange ∧
    (renderPixels opaqueImg ⟨0, 1, 1, 0⟩).EqOn opaqueImg :=
  ⟨by decide, by decide, c2_identity_amended opaqueImg (by decide) (by decide)⟩

/-- C4: both resampling steps are nearest-neighbor point sampling — every
pixel of the downscale-then-upscale composition equals some in-bounds source
sample (no averaging) for every pixel size in `[1, 50]` — and the 4x4
black/white checkerboard rendered with `pixelSize = 4` collapses to a single
flat-colored 4x4 block. -/
theorem c4_nearest_neighbor :
    (∀ (A : Image) (ps x y : Nat), 1 ≤ ps → ps ≤ 50 →
      0 < A.width → 0 < A.height → x < A.width → y < A.height →
      ∃ sx, sx < A.width ∧ ∃ sy, sy < A.height ∧
        (pixelate A ps).px x y = A.px sx sy) ∧
    (renderPixels checker4 ⟨4, 1, 1, 0⟩).EqOn (constImg 4 4 blackPx) := by
  constructor
  · intro A ps x y h1 _ hw hh hx hy
    exact pixelate_px A ps x y h1 hw hh hx hy
  · refine ⟨rfl, rfl, ?_⟩
    intro x hx y hy
    have hx2 : x < 4 := hx
    have hy2 : y < 4 := hy
    have h1 : (renderPixels checker4 ⟨4, 1, 1, 0⟩).px x y =
        (pixelate checker4 4).px x y :=
      applyFilter_ident_px 4 (pixelate checker4 4) x y
        (pixelate_inRange checker4 4 (by decide) (by decide) (by decide)
          (by decide) x hx2 y hy2)
        (pixelate_preserves_opacity checker4 4 (by decide) (by decide) (by decide)
          (by decide) x hx2 y hy2)
    show (renderPixels checker4 ⟨4, 1, 1, 0⟩).px x y = blackPx
    rw [h1]
    interval_cases x <;> interval_cases y <;> decide

/-- C4 (witness). -/
theorem c4_nearest_neighbor_witness :
    (1 ≤ 4 ∧ 4 ≤ 50 ∧ 0 < checker4.width ∧ 0 < checker4.height ∧
      0 < checker4.width ∧ 0 < checker4.height) ∧
    (∃ sx, sx < checker4.width ∧ ∃ sy, sy < checker4.height ∧
      (pixelate checker4 4).px 0 0 = checker4.px sx sy) :=
  ⟨⟨by decide, by decide, by decide, by decide, by decide, by decide⟩,
    c4_nearest_neighbor.1 checker4 4 0 0 (by decide) (by decide) (by decide)
      (by decide) (by decide) (by decide)⟩

/-- C5: the output of the pure render pipeline always has the source's
dimensions, and in the pixelation branch (`pixelSize ≥ 1`, positive source
dimensions) the intermediate surface has dimensions
`ceil(W / pixelSize) x ceil(H / pixelSize)`, each at least 1, before the final
upscale back to `W x H`. -/
theorem c5_dimension_preservation (A : Image) (p : Params)
    (hw : 0 < A.width) (hh : 0 < A.height) :
    (renderPixels A p).width = A.width ∧
    (renderPixels A p).height = A.height ∧
    (0 < p.pixelSize →
      renderPixels A p =
        applyFilter p (scaleNN (scaleNN A (ceilDiv A.width p.pixelSize)
          (ceilDiv A.height p.pixelSize)) A.width A.height) ∧
      (scaleNN A (ceilDiv A.width p.pixelSize) (ceilDiv A.height p.pixelSize)).width
          = ceilDiv A.width p.pixelSize ∧
      (scaleNN A (ceilDiv A.width p.pixelSize) (ceilDiv A.height p.pixelSize)).height
          = ceilDiv A.height p.pixelSize ∧
      1 ≤ ceilDiv A.width p.pixelSize ∧ 1 ≤ ceilDiv A.height p.pixelSize) := by
  refine ⟨renderPixels_width A p, renderPixels_height A p, fun hps => ?_⟩
  refine ⟨?_, rfl, rfl, ceilDiv_pos hw hps, ceilDiv_pos hh hps⟩
  unfold renderPixels pixelate
  rw [if_neg (by omega)]

/-- C5 (witness). -/
theorem c5_dimension_preservation_witness :
    0 < img2.width ∧ 0 < img2.height ∧ 0 < (10 : Nat) ∧
    (renderPixels img2 ⟨10, 1, 1, 0⟩).width = img2.width ∧
    (renderPixels img2 ⟨10, 1, 1, 0⟩).height = img2.height ∧
    1 ≤ ceilDiv img2.width 10 ∧ 1 ≤ ceilDiv img2.height 10 :=
  ⟨by decide, by decide, by decide,
    (c5_dimension_preservation img2 ⟨10, 1, 1, 0⟩ (by decide) (by decide)).1,
    (c5_dimension_preservation img2 ⟨10, 1, 1, 0⟩ (by decide) (by decide)).2.1,
    ((c5_dimension_preservation img2 ⟨10, 1, 1, 0⟩ (by decide) (by decide)).2.2
      (by decide)).2.2.2.1,
    ((c5_dimension_preservation img2 ⟨10, 1, 1, 0⟩ (by decide) (by decide)).2.2
      (by decide)).2.2.2.2⟩

/-- C3 (counterexample): the claim asserts that a render failing on
allocation/resource exhaustion propagates the failure to the caller. In the
source the whole fallible region sits in a `try`/`catch` whose handler only
logs and clears `isGenerating`: on a failing allocation the call returns
normally (no exception escapes) and the failure is not visible to the caller
— the displayed output is simply left as it was. -/
theorem c3_error_propagation_counterexample :
    (generatePixelatedImage wDone noOverrides false).2 = false ∧
    (generatePixelatedImage wDone noOverrides false).1.displayed = wDone.displayed ∧
    (generatePixelatedImage wDone noOverrides false).1.image = wDone.image :=
  ⟨rfl, rfl, rfl⟩

/-- C3 (amended): a failure of the fallible canvas work inside a render call
on a decoded image is caught by the call itself: the call returns normally
(no exception reaches the caller), leaves the displayed output, the image and
the parameters unchanged, resets `isGenerating` to `false`, and schedules no
retry (no `onload` handler is installed and nothing re-invokes the render). -/
theorem c3_error_swallowed_amended (w : World) (img : Img) (o : Overrides)
    (himg : w.image = some img) (hc : img.complete = true)
    (hn : img.naturalWidth ≠ 0) :
    generatePixelatedImage w o false = ({ w with isGenerating := false }, false) := by
  simp [generatePixelatedImage, himg, generateCore, hc, hn]

/-- C3 (witness). -/
theorem c3_error_swallowed_witness :
    wDone.image = some imgDone ∧ imgDone.complete = true ∧
    imgDone.naturalWidth ≠ 0 ∧
    generatePixelatedImage wDone noOverrides false =
      ({ wDone with isGenerating := false }, false) :=
  ⟨rfl, rfl, by decide, c3_error_swallowed_amended wDone imgDone noOverrides rfl rfl
    (by decide)⟩

/-- C6: the render is deterministic and stateless — for a fixed decoded image
and fixed effective parameters, two calls made from arbitrary component states
(different previous outputs, different `isGenerating` flags, different
parameter states as long as the resolved parameters agree) store the same
displayed output. -/
theorem c6_determinism (w1 w2 : World) (o1 o2 : Overrides) (img : Img)
    (h1 : w1.image = some img) (h2 : w2.image = some img)
    (hc : img.complete = true) (hn : img.naturalWidth ≠ 0)
    (hp : resolve w1.params o1 = resolve w2.params o2) :
    (generatePixelatedImage w1 o1 true).1.displayed =
      (generatePixelatedImage w2 o2 true).1.displayed := by
  simp [generatePixelatedImage, h1, h2, generateCore, hc, hn, hp]

/-- C6 (witness): two states sharing the decoded image but differing in the
previously displayed output and the `isGenerating` flag. -/
theorem c6_determinism_witness :
    wDone.image = some imgDone ∧ wDone2.image = some imgDone ∧
    imgDone.complete = true ∧ imgDone.naturalWidth ≠ 0 ∧
    resolve wDone.params noOverrides = resolve wDone2.params noOverrides ∧
    (generatePixelatedImage wDone noOverrides true).1.displayed =
      (generatePixelatedImage wDone2 noOverrides true).1.displayed :=
  ⟨rfl, rfl, rfl, by decide, rfl,
    c6_determinism wDone wDone2 noOverrides noOverrides imgDone rfl rfl rfl
      (by decide) rfl⟩

/-- C9: a render call on a fully decoded source has no effect on the source
image element — its pixel data, dimensions, decode state and `onload` handler
are all returned unchanged — and leaves the parameter state untouched,
whether or not the canvas work succeeds. -/
theorem c9_no_mutation (w : World) (o : Overrides) (a : Bool) (img : Img)
    (himg : w.image = some img) (hc : img.complete = true)
    (hn : img.naturalWidth ≠ 0) :
    (generatePixelatedImage w o a).1.image = w.image ∧
    (generatePixelatedImage w o a).1.params = w.params := by
  cases a <;> simp [generatePixelatedImage, himg, generateCore, hc, hn]

/-- C9 (witness). -/
theorem c9_no_mutation_witness :
    wDone.image = some imgDone ∧ imgDone.complete = true ∧
    imgDone.naturalWidth ≠ 0 ∧
    (generatePixelatedImage wDone noOverrides true).1.image = wDone.image ∧
    (generatePixelatedImage wDone noOverrides true).1.params = wDone.params :=
  ⟨rfl, rfl, by decide,
    (c9_no_mutation wDone noOverrides true imgDone rfl rfl (by decide)).1,
    (c9_no_mutation wDone noOverrides true imgDone rfl rfl (by decide)).2⟩

/-- C10: the upload handler stores the element and immediately displays its
raw `src` data-URL — independent of the current parameter values — and only
then invokes the render: structurally the handler is exactly the render call
on the fallback state; while the source is still undecoded the displayed
output remains the raw source, and on a decoded source the subsequent render
replaces it with the processed output. -/
theorem c10_upload_fallback :
    (∀ (w : World) (img : Img) (a : Bool),
      handleImageUpload w img a =
        generatePixelatedImage
          { w with image := some img, displayed := some (Display.srcURL img.src) }
          noOverrides a) ∧
    (∀ (w : World) (img : Img) (a : Bool), img.complete = false →
      (handleImageUpload w img a).1.displayed = some (Display.srcURL img.src)) ∧
    (∀ (w : World) (img : Img), img.complete = true → img.naturalWidth ≠ 0 →
      (handleImageUpload w img true).1.displayed =
        some (Display.canvasPNG (renderPixels img.pixels w.params))) := by
  refine ⟨fun w img a => rfl, ?_, ?_⟩
  · intro w img a hc
    simp [handleImageUpload, generatePixelatedImage, generateCore, hc]
  · intro w img hc hn
    simp [handleImageUpload, generatePixelatedImage, generateCore, hc, hn, resolve,
      noOverrides]

/-- C10 (witness): an undecoded upload keeps the raw source displayed; a
decoded upload displays the render of the state parameters. -/
theorem c10_upload_fallback_witness :
    imgLoading.complete = false ∧ imgDone.complete = true ∧
    imgDone.naturalWidth ≠ 0 ∧
    (handleImageUpload wDone2 imgLoading true).1.displayed =
      some (Display.srcURL imgLoading.src) ∧
    (handleImageUpload wDone2 imgDone true).1.displayed =
      some (Display.canvasPNG (renderPixels imgDone.pixels wDone2.params)) :=
  ⟨rfl, rfl, by decide,
    c10_upload_fallback.2.1 wDone2 imgLoading true rfl,
    c10_upload_fallback.2.2 wDone2 imgDone rfl (by decide)⟩

/-- C7: invoking the render on a not-yet-decoded source produces no output
and stores a one-shot re-invocation in the element's `onload` slot; a second
invocation while still undecoded overwrites that slot (no queue of pending
calls); once decode completes and the load handler fires, exactly one render
runs, with the parameters of the last deferred call, and the handler is
cleared so a further load dispatch does nothing. -/
theorem c7_deferred_retry (w : World) (img : Img) (o1 o2 : Overrides)
    (himg : w.image = some img) (hc : img.complete = false)
    (hpw : img.pixels.width ≠ 0) :
    (generatePixelatedImage w o1 true).1.displayed = w.displayed ∧
    (generatePixelatedImage w o1 true).1.image =
      some { img with onload := some (resolve w.params o1) } ∧
    (generatePixelatedImage (generatePixelatedImage w o1 true).1 o2
        true).1.displayed = w.displayed ∧
    (generatePixelatedImage (generatePixelatedImage w o1 true).1 o2
        true).1.image = some { img with onload := some (resolve w.params o2) } ∧
    (fireOnload (loadCompletes (generatePixelatedImage
        (generatePixelatedImage w o1 true).1 o2 true).1) true).1.displayed =
      some (Display.canvasPNG (renderPixels img.pixels (resolve w.params o2))) ∧
    (fireOnload (loadCompletes (generatePixelatedImage
        (generatePixelatedImage w o1 true).1 o2 true).1) true).1.image =
      some { img with
        complete := true
        naturalWidth := img.pixels.width
        onload := none } ∧
    fireOnload (fireOnload (loadCompletes (generatePixelatedImage
        (generatePixelatedImage w o1 true).1 o2 true).1) true).1 true =
      ((fireOnload (loadCompletes (generatePixelatedImage
        (generatePixelatedImage w o1 true).1 o2 true).1) true).1, false) := by
  have e1 : (generatePixelatedImage w o1 true).1 =
      { w with
        isGenerating := true
        image := some { img with onload := some (resolve w.params o1) } } := by
    simp [generatePixelatedImage, himg, generateCore, hc]
  have e2 : (generatePixelatedImage
      ({ w with
        isGenerating := true
        image := some { img with onload := some (resolve w.params o1) } } : World)
      o2 true).1 =
      { w with
        isGenerating := true
        image := some { img with onload := some (resolve w.params o2) } } := by
    simp [generatePixelatedImage, generateCore, hc]
  have e3 : loadCompletes
      ({ w with
        isGenerating := true
        image := some { img with onload := some (resolve w.params o2) } } : World) =
      { w with
        isGenerating := true
        image := some { img with
          complete := true
          naturalWidth := img.pixels.width
          onload := some (resolve w.params o2) } } := by
    simp [loadCompletes]
  have e4 : (fireOnload
      ({ w with
        isGenerating := true
        image := some { img with
          complete := true
          naturalWidth := img.pixels.width
          onload := some (resolve w.params o2) } } : World) true).1 =
      { w with
        isGenerating := false
        displayed := some (Display.canvasPNG
          (renderPixels img.pixels (resolve w.params o2)))
        image := some { img with
          complete := true
          naturalWidth := img.pixels.width
          onload := none } } := by
    simp [fireOnload, generateCore, hpw]
  have e5 : fireOnload
      ({ w with
        isGenerating := false
        displayed := some (Display.canvasPNG
          (renderPixels img.pixels (resolve w.params o2)))
        image := some { img with
          complete := true
          naturalWidth := img.pixels.width
          onload := none } } : World) true =
      (({ w with
        isGenerating := false
        displayed := some (Display.canvasPNG
          (renderPixels img.pixels (resolve w.params o2)))
        image := some { img with
          complete := true
          naturalWidth := img.pixels.width
          onload := none } } : World), false) := by
    simp [fireOnload]
  rw [e1, e2, e3, e4]
  exact ⟨rfl, rfl, rfl, rfl, rfl, rfl, e5⟩

/-- C7 (witness): two deferred calls on the undecoded element, then decode
completion and the load dispatch: no output before decode, then exactly the
last deferred parameters are rendered, and a repeated dispatch is inert. -/
theorem c7_deferred_retry_witness :
    wLoading.image = some imgLoading ∧ imgLoading.complete = false ∧
    imgLoading.pixels.width ≠ 0 ∧
    (generatePixelatedImage wLoading ⟨some 3, none, none, none⟩ true).1.displayed
      = wLoading.displayed ∧
    (fireOnload (loadCompletes (generatePixelatedImage
        (generatePixelatedImage wLoading ⟨some 3, none, none, none⟩ true).1
        ⟨some 2, none, none, none⟩ true).1) true).1.displayed =
      some (Display.canvasPNG (renderPixels imgLoading.pixels
        (resolve wLoading.params ⟨some 2, none, none, none⟩))) ∧
    fireOnload (fireOnload (loadCompletes (generatePixelatedImage
        (generatePixelatedImage wLoading ⟨some 3, none, none, none⟩ true).1
        ⟨some 2, none, none, none⟩ true).1) true).1 true =
      ((fireOnload (loadCompletes (generatePixelatedImage
        (generatePixelatedImage wLoading ⟨some 3, none, none, none⟩ true).1
        ⟨some 2, none, none, none⟩ true).1) true).1, false) :=
  ⟨rfl, rfl, by decide,
    (c7_deferred_retry wLoading imgLoading ⟨some 3, none, none, none⟩
      ⟨some 2, none, none, none⟩ rfl rfl (by decide)).1,
    (c7_deferred_retry wLoading imgLoading ⟨some 3, none, none, none⟩
      ⟨some 2, none, none, none⟩ rfl rfl (by decide)).2.2.2.2.1,
    (c7_deferred_retry wLoading imgLoading ⟨some 3, none, none, none⟩
      ⟨some 2, none, none, none⟩ rfl rfl (by decide)).2.2.2.2.2.2⟩

/-- C8 (counterexample): the claim asserts that a render completing later for
an older parameter set never overwrites a newer parameter set's displayed
result. Counter-trace: while the source is still decoding, a render with
`pixelSize = 2` is deferred into `onload`; decoding finishes (`complete`
becomes true; the load event is dispatched as a separate task); before that
task runs, the user settles `pixelSize = 1`, which renders and displays
immediately; then the pending load handler fires and re-renders with the
stale `pixelSize = 2`, overwriting the newer result — and the two renders
really differ. -/
theorem c8_stale_overwrite_counterexample :
    (handlePixelSizeChange (loadCompletes
        (generatePixelatedImage wLoading ⟨some 2, none, none, none⟩ true).1)
        1 true).1.displayed =
      some (Display.canvasPNG (renderPixels img2 ⟨1, 1, 1, 0⟩)) ∧
    (fireOnload (handlePixelSizeChange (loadCompletes
        (generatePixelatedImage wLoading ⟨some 2, none, none, none⟩ true).1)
        1 true).1 true).1.displayed =
      some (Display.canvasPNG (renderPixels img2 ⟨2, 1, 1, 0⟩)) ∧
    ¬ (renderPixels img2 ⟨2, 1, 1, 0⟩).EqOn (renderPixels img2 ⟨1, 1, 1, 0⟩) := by
  refine ⟨rfl, rfl, ?_⟩
  intro h
  have hp := h.2.2 0 (by decide) 0 (by decide)
  have hL : (renderPixels img2 ⟨2, 1, 1, 0⟩).px 0 0 = (pixelate img2 2).px 0 0 :=
    applyFilter_ident_px 2 (pixelate img2 2) 0 0 (by decide) (by decide)
  have hR : (renderPixels img2 ⟨1, 1, 1, 0⟩).px 0 0 = (pixelate img2 1).px 0 0 :=
    applyFilter_ident_px 1 (pixelate img2 1) 0 0 (by decide) (by decide)
  rw [hL, hR] at hp
  exact absurd hp (by decide)

/-- C8 (amended): once the source is decoded and no deferred handler is
pending, every parameter change renders synchronously, so the parameters the
user just settled are exactly what is displayed, and no pending load dispatch
exists to overwrite them; the original claim fails only through a handler
deferred before decode completion firing after a newer synchronous render. -/
theorem c8_last_settled_amended (w : World) (img : Img) (n : Nat)
    (himg : w.image = some img) (hc : img.complete = true)
    (hn : img.naturalWidth ≠ 0) (hol : img.onload = none) :
    (handlePixelSizeChange w n true).1.displayed =
      some (Display.canvasPNG (renderPixels img.pixels
        ⟨n, w.params.brightness, w.params.contrast, w.params.shadow⟩)) ∧
    fireOnload (handlePixelSizeChange w n true).1 true =
      ((handlePixelSizeChange w n true).1, false) := by
  have e : handlePixelSizeChange w n true =
      ({ w with
          params := { w.params with pixelSize := n }
          displayed := some (Display.canvasPNG (renderPixels img.pixels
            ⟨n, w.params.brightness, w.params.contrast, w.params.shadow⟩))
          isGenerating := false }, false) := by
    simp [handlePixelSizeChange, generatePixelatedImage, himg, generateCore,
      hc, hn, resolve]
  rw [e]
  exact ⟨rfl, by simp [fireOnload, himg, hol]⟩

/-- C8 (witness). -/
theorem c8_last_settled_witness :
    wDone.image = some imgDone ∧ imgDone.complete = true ∧
    imgDone.naturalWidth ≠ 0 ∧ imgDone.onload = none ∧
    (handlePixelSizeChange wDone 3 true).1.displayed =
      some (Display.canvasPNG (renderPixels imgDone.pixels
        ⟨3, wDone.params.brightness, wDone.params.contrast,
          wDone.params.shadow⟩)) ∧
    fireOnload (handlePixelSizeChange wDone 3 true).1 true =
      ((handlePixelSizeChange wDone 3 true).1, false) :=
  ⟨rfl, rfl, by decide, rfl,
    (c8_last_settled_amended wDone imgDone 3 rfl rfl (by decide) rfl).1,
    (c8_last_settled_amended wDone imgDone 3 rfl rfl (by decide) rfl).2⟩

end ImageToArt
